import Mathlib

/-!
Shallow embedding of `src/servicenow_mcp/tools/catalog_tools.py`
(ServiceNow MCP catalog tools) and proofs about the specified behaviour.

Remote JSON objects are modelled as association lists from string keys to
string values (the fields consulted by this module are all strings).
Python's `dict.get` becomes an `Option String` lookup, Python's `a or b`
on optional strings becomes `pyOrStr` (falsy = `None` or `""`), and the
HTTP transport is an environment value: `Except err payload`, where `err`
is the message of the `requests.exceptions.RequestException` raised on a
non-2xx status or connectivity error.
-/

namespace CatalogTools

/-- A remote JSON object: string-keyed, string-valued fields. -/
structure JObj where
  fields : List (String × String)
deriving DecidableEq, Repr

/-- Python `obj.get(key)`: value when the key is present, `None` otherwise.
Mirrors first-match lookup in a dict (keys are unique in practice). -/
def JObj.get (o : JObj) (k : String) : Option String :=
  (o.fields.find? (fun p => p.1 == k)).map (fun p => p.2)

/-- The empty dict `{}` used as `dict.get` default. -/
def JObj.empty : JObj := ⟨[]⟩

/-- Python truthiness test `not x` for an optional string:
true when `x` is `None` or the empty string. -/
def strFalsy : Option String → Bool
  | none => true
  | some s => s == ""

/-- Python `a or b` for optional strings: `a` when truthy, else `b`. -/
def pyOrStr (a b : Option String) : Option String :=
  if strFalsy a then b else a

/-- Render an optional string inside an f-string: Python prints `None`
for an absent value. -/
def pyShow : Option String → String
  | none => "None"
  | some s => s

/-- The submission endpoint chosen from `item_type`
(lines 582-585 of the source). -/
inductive Endpoint where
  | orderNow
  | submitProducer
deriving DecidableEq, Repr

/-- `data` payload of a submission outcome: lines 632-635 of the source. -/
structure SubmissionData where
  record_id : Option String
  record_number : Option String
deriving DecidableEq, Repr

/-- The `CatalogResponse` pydantic model as returned by
`submit_catalog_request`. -/
structure SubmitResponse where
  success : Bool
  message : String
  data : Option SubmissionData
deriving DecidableEq, Repr

/-- How a call to `submit_catalog_request` terminates: a returned
`CatalogResponse`, or a Python exception escaping the function (the
`except` clause at line 643 catches only `requests.exceptions.RequestException`,
so the `RuntimeError` raised at line 611 propagates to the caller). -/
inductive SubmitOutcome where
  | returned (r : SubmitResponse)
  | raised (msg : String)
deriving DecidableEq, Repr

/-- Transport environment for one `submit_catalog_request` call:
the primary POST outcome (its parsed JSON body's `result` field, `none`
when the key is absent), and the secondary `sc_req_item` GET outcome
(the `result` list, `none` when the key is absent), consulted only if
that lookup is actually issued. -/
structure SubmitEnv where
  postResult : Except String (Option JObj)
  ritmResult : Except String (Option (List JObj))

/-- Everything observable about one `submit_catalog_request` call:
which endpoint was selected, the request body sent, whether the secondary
`sc_req_item` lookup was issued, and how the call terminated. -/
structure SubmitTrace where
  endpoint : Endpoint
  body : List (String × List (String × String))
  lookupIssued : Bool
  outcome : SubmitOutcome
deriving DecidableEq, Repr

/-- Lines 587-589: the request body holds `variables` only when the
supplied mapping is truthy (non-`None` and non-empty). -/
def submitRequestBody (vars : Option (List (String × String))) :
    List (String × List (String × String)) :=
  match vars with
  | none => []
  | some v => if v.isEmpty then [] else [("variables", v)]

/-- The successful-return composition of lines 632-641: the formatted
`data` dict and the message built from `record_number or record_id`. -/
def submitSuccess (record_id record_number : Option String) : SubmitResponse :=
  { success := true,
    message := "Submitted catalog request; created record "
      ++ pyShow (pyOrStr record_number record_id),
    data := some { record_id := record_id, record_number := record_number } }

/-- Lines 596-649: the `try` block and its `except` clause, as a function
of the transport environment. Returns whether the secondary `sc_req_item`
lookup was issued, paired with how the call terminates. The `raise
RuntimeError` at line 611 is not a `requests.exceptions.RequestException`,
so it terminates the call as `.raised` rather than being converted into a
failed response by the `except` clause at line 643. -/
def submitResolve (env : SubmitEnv) : Bool × SubmitOutcome :=
  match env.postResult with
  | .error e =>
      (false, .returned
        { success := false,
          message := "Error submitting catalog request: " ++ e,
          data := none })
  | .ok jres =>
      let result := jres.getD JObj.empty
      let created_table := pyOrStr (result.get "table") (result.get "record")
      if created_table == some "sc_request" then
        let req_id := pyOrStr (result.get "sys_id") (result.get "request_id")
        if strFalsy req_id then
          (false, .raised "Cannot locate sys_id for created record")
        else
          match env.ritmResult with
          | .error e =>
              (true, .returned
                { success := false,
                  message := "Error submitting catalog request: " ++ e,
                  data := none })
          | .ok jlist =>
              match jlist.getD [] with
              | ritm :: _ =>
                  (true, .returned
                    (submitSuccess (ritm.get "sys_id") (ritm.get "number")))
              | [] =>
                  (true, .returned
                    (submitSuccess req_id
                      (pyOrStr (result.get "request_number")
                        (result.get "number"))))
      else
        (false, .returned
          (submitSuccess (result.get "sys_id")
            (pyOrStr (result.get "number") (result.get "request_number"))))

/-- `submit_catalog_request` (lines 568-649 of the source), as a function
of `item_type`, `params.variables` and the transport environment.
`config`, `auth_manager` and `params.item_id` only shape URLs and headers
and are dropped from the embedding; endpoint selection and the request
body are computed before the `try` block, so they do not depend on the
transport outcome. -/
def submit_catalog_request (item_type : String)
    (vars : Option (List (String × String)))
    (env : SubmitEnv) : SubmitTrace :=
  { endpoint := if item_type == "producer" then .submitProducer else .orderNow,
    body := submitRequestBody vars,
    lookupIssued := (submitResolve env).1,
    outcome := (submitResolve env).2 }

/-- Lines 142-153: the fixed field projection applied to each item by
`list_catalog_items`, substituting `""` for any missing field. -/
def formatCatalogListItem (item : JObj) : List (String × String) :=
  [ ("sys_id", (item.get "sys_id").getD ""),
    ("name", (item.get "name").getD ""),
    ("short_description", (item.get "short_description").getD ""),
    ("category", (item.get "category").getD ""),
    ("price", (item.get "price").getD ""),
    ("picture", (item.get "picture").getD ""),
    ("active", (item.get "active").getD ""),
    ("order", (item.get "order").getD "") ]

/-- Lines 222-239: the fixed field projection applied by
`get_catalog_item`; `ui_policies` and `client_scripts` are read from the
payload keys `ui_policy` and `client_script`. -/
def formatCatalogItemDetail (item : JObj) : List (String × String) :=
  [ ("sys_id", (item.get "sys_id").getD ""),
    ("name", (item.get "name").getD ""),
    ("short_description", (item.get "short_description").getD ""),
    ("description", (item.get "description").getD ""),
    ("category", (item.get "category").getD ""),
    ("price", (item.get "price").getD ""),
    ("picture", (item.get "picture").getD ""),
    ("active", (item.get "active").getD ""),
    ("order", (item.get "order").getD ""),
    ("delivery_time", (item.get "delivery_time").getD ""),
    ("availability", (item.get "availability").getD ""),
    ("mandatory_attachment", (item.get "mandatory_attachment").getD ""),
    ("variables", (item.get "variables").getD ""),
    ("ui_policies", (item.get "ui_policy").getD ""),
    ("client_scripts", (item.get "client_script").getD "") ]

/-- The payload key each projected field of `formatCatalogItemDetail`
is read from: identical to the projected name except for the two
renamed fields. -/
def detailSourceKey (k : String) : String :=
  if k == "ui_policies" then "ui_policy"
  else if k == "client_scripts" then "client_script"
  else k

/-- The `CatalogResponse` returned by `get_catalog_item`: `data` is the
projected item when present. -/
structure GetItemResponse where
  success : Bool
  message : String
  data : Option (List (String × String))
deriving DecidableEq, Repr

/-- `get_catalog_item` (lines 176-253 of the source). The environment is
the GET outcome: transport error message, or the parsed JSON body's
`result` field (`none` when the key is absent, in which case the code
falls back to `{}`). -/
def get_catalog_item (item_id : String)
    (env : Except String (Option JObj)) : GetItemResponse :=
  match env with
  | .error e =>
      { success := false,
        message := "Error getting catalog item: " ++ e,
        data := none }
  | .ok jres =>
      let item := jres.getD JObj.empty
      if item.fields.isEmpty then
        { success := false,
          message := "Catalog item not found: " ++ item_id,
          data := none }
      else
        { success := true,
          message := "Retrieved catalog item: " ++ (item.get "name").getD "",
          data := some (formatCatalogItemDetail item) }

/-- One entry of `failed_items` accumulated by `move_catalog_items`
(line 535 of the source). -/
structure FailedItem where
  item_id : String
  error : String
deriving DecidableEq, Repr

/-- The `data` dict of a `move_catalog_items` response; each field is
`none` when the source omits that key (lines 542, 548-551, 557). -/
structure MoveData where
  moved_items_count : Option Nat
  failed_items : Option (List FailedItem)
deriving DecidableEq, Repr

/-- The `CatalogResponse` returned by `move_catalog_items`. -/
structure MoveResponse where
  success : Bool
  message : String
  data : Option MoveData
deriving DecidableEq, Repr

/-- The per-item loop of `move_catalog_items` (lines 523-535): one PATCH
per item id, counting successes and accumulating failures in order.
`transport` gives, per item id, `none` on success and the exception
message on a `requests.exceptions.RequestException`. -/
def moveLoop (item_ids : List String) (transport : String → Option String) :
    Nat × List FailedItem :=
  match item_ids with
  | [] => (0, [])
  | item_id :: rest =>
      let r := moveLoop rest transport
      match transport item_id with
      | none => (r.1 + 1, r.2)
      | some e => (r.1, ⟨item_id, e⟩ :: r.2)

/-- `move_catalog_items` (lines 493-566 of the source), as a function of
`params.item_ids`, `params.target_category_id` and the per-item transport
outcome. The outer `except Exception` branch is unreachable in the
embedding (every per-item failure is already caught inside the loop). -/
def move_catalog_items (item_ids : List String) (target_category_id : String)
    (transport : String → Option String) : MoveResponse :=
  let r := moveLoop item_ids transport
  let success_count := r.1
  let failed_items := r.2
  if success_count == item_ids.length then
    { success := true,
      message := "Successfully moved " ++ toString success_count
        ++ " catalog items to category " ++ target_category_id,
      data := some { moved_items_count := some success_count,
                     failed_items := none } }
  else if success_count > 0 then
    { success := true,
      message := "Partially moved catalog items. " ++ toString success_count
        ++ " succeeded, " ++ toString failed_items.length ++ " failed.",
      data := some { moved_items_count := some success_count,
                     failed_items := some failed_items } }
  else
    { success := false,
      message := "Failed to move any catalog items",
      data := some { moved_items_count := none,
                     failed_items := some failed_items } }

/-- The failing positions of a `move_catalog_items` call: the item ids for
which the transport fails, in input order, paired with their error text. -/
def moveFailures (item_ids : List String) (transport : String → Option String) :
    List FailedItem :=
  item_ids.filterMap (fun i => (transport i).map (fun e => FailedItem.mk i e))

/-- A concrete per-item transport in which only item `"b"` fails. -/
def moveTransportB : String → Option String :=
  fun i => if i == "b" then some "boom" else none

/-- Python `a or b` keeps `a` when it is a non-empty string. -/
theorem pyOrStr_of_truthy (a : String) (b : Option String) (h : a ≠ "") :
    pyOrStr (some a) b = some a := by
  simp [pyOrStr, strFalsy, h]

/-- Python `a or b` falls through to `b` when `a` is `None` or empty. -/
theorem pyOrStr_of_falsy (a b : Option String) (h : a = none ∨ a = some "") :
    pyOrStr a b = b := by
  rcases h with h | h <;> subst h <;> simp [pyOrStr, strFalsy]

/-- The loop of `move_catalog_items` accumulates exactly the failing
items in input order, and its success count plus the failure count is
the number of item ids. -/
theorem moveLoop_spec (ids : List String) (t : String → Option String) :
    (moveLoop ids t).2 = moveFailures ids t ∧
    (moveLoop ids t).1 + (moveFailures ids t).length = ids.length := by
  induction ids with
  | nil => simp [moveLoop, moveFailures]
  | cons i rest ih =>
      obtain ⟨ih1, ih2⟩ := ih
      cases h : t i with
      | none =>
          simp only [moveLoop, moveFailures, List.filterMap_cons, h,
            Option.map_none', List.length_cons]
          simp only [moveFailures] at ih1 ih2
          exact ⟨ih1, by omega⟩
      | some e =>
          simp only [moveLoop, moveFailures, List.filterMap_cons, h,
            Option.map_some', List.length_cons]
          simp only [moveFailures] at ih1 ih2
          exact ⟨by rw [ih1], by omega⟩

/-- Claim C1, counterexample. The claimed invariant — `record_id` and
`record_number` both populated or both null, never a mix — fails: for the
submission response `{table: "sc_request", sys_id: "REQ1"}` with a
secondary lookup returning zero rows, the parent-fallback path populates
`record_id` with `"REQ1"` while `record_number` is null (the parent has
neither `request_number` nor `number`). -/
theorem c1_counterexample :
    (submit_catalog_request "item" none
        ⟨.ok (some ⟨[("table", "sc_request"), ("sys_id", "REQ1")]⟩),
         .ok (some [])⟩).outcome
      = .returned
          { success := true,
            message := "Submitted catalog request; created record REQ1",
            data := some { record_id := some "REQ1", record_number := none } }
    ∧ (some "REQ1" : Option String) ≠ none
    ∧ (none : Option String) = none := by
  decide

/-- Claim C1, amended: the all-or-nothing coupling holds between `success`
and the `data` payload — every returned response has `success = true`
exactly when `data` is non-null — but inside a successful result the two
fields `record_id` and `record_number` are resolved independently and
either may be null while the other is populated. -/
theorem c1_success_iff_data_presence (item_type : String)
    (vars : Option (List (String × String))) (env : SubmitEnv)
    (r : SubmitResponse)
    (h : (submit_catalog_request item_type vars env).outcome = .returned r) :
    r.success = true ↔ r.data ≠ none := by
  have h2 : (submitResolve env).2 = .returned r := h
  rcases env with ⟨post, ritm⟩
  unfold submitResolve at h2
  rcases post with e | jres
  · simp only at h2
    injection h2 with h3
    subst h3
    simp
  · simp only at h2
    split at h2
    · split at h2
      · exact SubmitOutcome.noConfusion h2
      · rcases ritm with e | jlist
        · simp only at h2
          injection h2 with h3
          subst h3
          simp
        · simp only at h2
          split at h2
          · injection h2 with h3
            subst h3
            simp [submitSuccess]
          · injection h2 with h3
            subst h3
            simp [submitSuccess]
    · injection h2 with h3
      subst h3
      simp [submitSuccess]

/-- Claim C1, witness for the amended theorem at a concrete input: a
transport failure on the primary POST yields a returned response, and for
it `success = true` holds exactly when `data` is non-null. -/
theorem c1_success_iff_data_presence_witness :
    (submit_catalog_request "item" none ⟨.error "boom", .ok none⟩).outcome
      = .returned
          { success := false,
            message := "Error submitting catalog request: boom",
            data := none }
    ∧ (({ success := false,
          message := "Error submitting catalog request: boom",
          data := none } : SubmitResponse).success = true
        ↔ ({ success := false,
             message := "Error submitting catalog request: boom",
             data := none } : SubmitResponse).data ≠ none) :=
  ⟨by decide,
   c1_success_iff_data_presence "item" none ⟨.error "boom", .ok none⟩
     { success := false,
       message := "Error submitting catalog request: boom",
       data := none }
     (by decide)⟩

/-- Claim C2, evaluation at the failing input. For a `RequestRecord`
response (`table = "sc_request"`) in which both parent-identifier fields
`sys_id` and `request_id` are absent, `submit_catalog_request` does not
return `success = false` with `data = null`: it raises a `RuntimeError`
(line 611) that the `except requests.exceptions.RequestException` clause
does not catch, so the exception propagates past the adapter boundary,
contradicting the documented error contract. -/
theorem c2_missing_parent_id_raises :
    submit_catalog_request "item" none
        ⟨.ok (some ⟨[("table", "sc_request")]⟩), .ok (some [])⟩
      = { endpoint := .orderNow, body := [], lookupIssued := false,
          outcome := .raised "Cannot locate sys_id for created record" } := by
  decide

/-- Claim C3: for a `RequestRecord` response with a resolvable parent
identifier whose secondary `sc_req_item` lookup returns at least one row,
the lookup is issued and the result's `record_id`/`record_number` are the
first returned row's `sys_id` and `number`; whenever the row's `sys_id`
differs from the parent request's identifier, `record_id` is therefore
not the parent's identifier. -/
theorem c3_ritm_row_resolution (item_type : String)
    (vars : Option (List (String × String)))
    (env : SubmitEnv) (jres : Option JObj) (result : JObj)
    (ritm : JObj) (rest : List JObj)
    (hpost : env.postResult = .ok jres)
    (hres : jres.getD JObj.empty = result)
    (hmark : pyOrStr (result.get "table") (result.get "record")
      = some "sc_request")
    (hid : strFalsy (pyOrStr (result.get "sys_id") (result.get "request_id"))
      = false)
    (hlook : env.ritmResult = .ok (some (ritm :: rest))) :
    (submit_catalog_request item_type vars env).lookupIssued = true ∧
    (submit_catalog_request item_type vars env).outcome
      = .returned
          { success := true,
            message := "Submitted catalog request; created record "
              ++ pyShow (pyOrStr (ritm.get "number") (ritm.get "sys_id")),
            data := some { record_id := ritm.get "sys_id",
                           record_number := ritm.get "number" } } ∧
    (ritm.get "sys_id" ≠ pyOrStr (result.get "sys_id") (result.get "request_id") →
      (SubmissionData.mk (ritm.get "sys_id") (ritm.get "number")).record_id
        ≠ pyOrStr (result.get "sys_id") (result.get "request_id")) := by
  refine ⟨?_, ?_, fun hne => hne⟩ <;>
    simp [submit_catalog_request, submitResolve, submitSuccess,
      hpost, hres, hmark, hid, hlook]

/-- Claim C3, witness at the spec's own scenario: the remote returns
`{table: "sc_request", sys_id: "REQ1", request_number: "REQ0001"}` and the
lookup returns one row `{sys_id: "RITM9", number: "RITM0009"}`; the result
is the row's identifier and number, not the parent's. -/
theorem c3_ritm_row_resolution_witness :
    (submit_catalog_request "item" none
        ⟨.ok (some ⟨[("table", "sc_request"), ("sys_id", "REQ1"),
            ("request_number", "REQ0001")]⟩),
         .ok (some [⟨[("sys_id", "RITM9"), ("number", "RITM0009")]⟩])⟩).lookupIssued
      = true ∧
    (submit_catalog_request "item" none
        ⟨.ok (some ⟨[("table", "sc_request"), ("sys_id", "REQ1"),
            ("request_number", "REQ0001")]⟩),
         .ok (some [⟨[("sys_id", "RITM9"), ("number", "RITM0009")]⟩])⟩).outcome
      = .returned
          { success := true,
            message := "Submitted catalog request; created record RITM0009",
            data := some { record_id := some "RITM9",
                           record_number := some "RITM0009" } } ∧
    ((some "RITM9" : Option String) ≠ some "REQ1" →
      (SubmissionData.mk (some "RITM9") (some "RITM0009")).record_id
        ≠ some "REQ1") :=
  c3_ritm_row_resolution "item" none
    ⟨.ok (some ⟨[("table", "sc_request"), ("sys_id", "REQ1"),
        ("request_number", "REQ0001")]⟩),
     .ok (some [⟨[("sys_id", "RITM9"), ("number", "RITM0009")]⟩])⟩
    (some ⟨[("table", "sc_request"), ("sys_id", "REQ1"),
        ("request_number", "REQ0001")]⟩)
    ⟨[("table", "sc_request"), ("sys_id", "REQ1"),
        ("request_number", "REQ0001")]⟩
    ⟨[("sys_id", "RITM9"), ("number", "RITM0009")]⟩ []
    rfl rfl (by decide) (by decide) rfl

/-- Claim C4, counterexample. The claim says `record_number` equals the
parent's `request_number` field, falling back to `number` only when
`request_number` is absent. But the code uses Python `or`, which also
falls through on an empty string: for a parent response carrying
`request_number: ""` and `number: "N1"` with a lookup returning zero rows,
the code yields `record_number = "N1"`, not the present
`request_number` value `""`. -/
theorem c4_counterexample :
    (submit_catalog_request "item" none
        ⟨.ok (some ⟨[("table", "sc_request"), ("sys_id", "REQ1"),
            ("request_number", ""), ("number", "N1")]⟩),
         .ok (some [])⟩).outcome
      = .returned
          { success := true,
            message := "Submitted catalog request; created record N1",
            data := some { record_id := some "REQ1",
                           record_number := some "N1" } }
    ∧ (JObj.mk [("table", "sc_request"), ("sys_id", "REQ1"),
        ("request_number", ""), ("number", "N1")]).get "request_number"
        = some ""
    ∧ (some "N1" : Option String) ≠ some "" := by
  decide

/-- Claim C4, amended: for a `RequestRecord` response with a resolvable
parent identifier whose secondary lookup returns zero rows, `record_id`
is the parent request's identifier and `record_number` is the parent's
`request_number` field, falling back to its `number` field when
`request_number` is absent **or empty** (Python truthiness). -/
theorem c4_parent_fallback_resolution (item_type : String)
    (vars : Option (List (String × String)))
    (env : SubmitEnv) (jres : Option JObj) (result : JObj)
    (jl : Option (List JObj))
    (hpost : env.postResult = .ok jres)
    (hres : jres.getD JObj.empty = result)
    (hmark : pyOrStr (result.get "table") (result.get "record")
      = some "sc_request")
    (hid : strFalsy (pyOrStr (result.get "sys_id") (result.get "request_id"))
      = false)
    (hlook : env.ritmResult = .ok jl)
    (hempty : jl.getD [] = []) :
    (submit_catalog_request item_type vars env).outcome
      = .returned
          { success := true,
            message := "Submitted catalog request; created record "
              ++ pyShow (pyOrStr
                  (pyOrStr (result.get "request_number") (result.get "number"))
                  (pyOrStr (result.get "sys_id") (result.get "request_id"))),
            data := some
              { record_id := pyOrStr (result.get "sys_id")
                  (result.get "request_id"),
                record_number := pyOrStr (result.get "request_number")
                  (result.get "number") } } ∧
    (∀ s, result.get "request_number" = some s → s ≠ "" →
      pyOrStr (result.get "request_number") (result.get "number") = some s) ∧
    ((result.get "request_number" = none ∨
        result.get "request_number" = some "") →
      pyOrStr (result.get "request_number") (result.get "number")
        = result.get "number") := by
  refine ⟨?_, ?_, ?_⟩
  · simp [submit_catalog_request, submitResolve, submitSuccess,
      hpost, hres, hmark, hid, hlook, hempty]
  · intro s hs hne
    rw [hs]
    exact pyOrStr_of_truthy s _ hne
  · intro h
    exact pyOrStr_of_falsy _ _ h

/-- Claim C4, witness at the spec's own scenario: the remote returns
`{table: "sc_request", sys_id: "REQ1", request_number: "REQ0001"}` and the
lookup returns no rows; the result is the parent's own identifier and
request number. -/
theorem c4_parent_fallback_resolution_witness :
    (submit_catalog_request "item" none
        ⟨.ok (some ⟨[("table", "sc_request"), ("sys_id", "REQ1"),
            ("request_number", "REQ0001")]⟩),
         .ok (some [])⟩).outcome
      = .returned
          { success := true,
            message := "Submitted catalog request; created record REQ0001",
            data := some { record_id := some "REQ1",
                           record_number := some "REQ0001" } } ∧
    (∀ s, (some "REQ0001" : Option String) = some s → s ≠ "" →
      pyOrStr (some "REQ0001") none = some s) ∧
    (((some "REQ0001" : Option String) = none ∨
        (some "REQ0001" : Option String) = some "") →
      pyOrStr (some "REQ0001") none = none) :=
  c4_parent_fallback_resolution "item" none
    ⟨.ok (some ⟨[("table", "sc_request"), ("sys_id", "REQ1"),
        ("request_number", "REQ0001")]⟩),
     .ok (some [])⟩
    (some ⟨[("table", "sc_request"), ("sys_id", "REQ1"),
        ("request_number", "REQ0001")]⟩)
    ⟨[("table", "sc_request"), ("sys_id", "REQ1"),
        ("request_number", "REQ0001")]⟩
    (some [])
    rfl rfl (by decide) (by decide) rfl rfl

/-- Claim C5, counterexample. The claim says the direct-record path sets
`record_number` to the response's `number` field, falling back to
`request_number` only when `number` is absent. The code's Python `or`
also falls through on an empty string: for the response
`{sys_id: "INC1", number: "", request_number: "RN0001"}` (no request
marker), the code yields `record_number = "RN0001"`, not the present
`number` value `""`. -/
theorem c5_counterexample :
    (submit_catalog_request "item" none
        ⟨.ok (some ⟨[("sys_id", "INC1"), ("number", ""),
            ("request_number", "RN0001")]⟩),
         .ok (some [])⟩).outcome
      = .returned
          { success := true,
            message := "Submitted catalog request; created record RN0001",
            data := some { record_id := some "INC1",
                           record_number := some "RN0001" } }
    ∧ (JObj.mk [("sys_id", "INC1"), ("number", ""),
        ("request_number", "RN0001")]).get "number" = some ""
    ∧ (some "RN0001" : Option String) ≠ some "" := by
  decide

/-- Claim C5, amended: for every submission response in which neither the
`table` field nor the `record` field carries the request marker
`"sc_request"` (including responses with both discriminant fields absent),
no secondary lookup is issued, `record_id` is the response's top-level
`sys_id`, and `record_number` is its `number` field, falling back to
`request_number` when `number` is absent **or empty** (Python truthiness). -/
theorem c5_direct_record_resolution (item_type : String)
    (vars : Option (List (String × String)))
    (env : SubmitEnv) (jres : Option JObj) (result : JObj)
    (hpost : env.postResult = .ok jres)
    (hres : jres.getD JObj.empty = result)
    (htab : result.get "table" ≠ some "sc_request")
    (hrec : result.get "record" ≠ some "sc_request") :
    (submit_catalog_request item_type vars env).lookupIssued = false ∧
    (submit_catalog_request item_type vars env).outcome
      = .returned
          { success := true,
            message := "Submitted catalog request; created record "
              ++ pyShow (pyOrStr
                  (pyOrStr (result.get "number") (result.get "request_number"))
                  (result.get "sys_id")),
            data := some
              { record_id := result.get "sys_id",
                record_number := pyOrStr (result.get "number")
                  (result.get "request_number") } } ∧
    (∀ s, result.get "number" = some s → s ≠ "" →
      pyOrStr (result.get "number") (result.get "request_number") = some s) ∧
    ((result.get "number" = none ∨ result.get "number" = some "") →
      pyOrStr (result.get "number") (result.get "request_number")
        = result.get "request_number") := by
  have hct : pyOrStr (result.get "table") (result.get "record")
      ≠ some "sc_request" := by
    unfold pyOrStr
    split <;> assumption
  have hb : (pyOrStr (result.get "table") (result.get "record")
      == some "sc_request") = false := beq_eq_false_iff_ne.mpr hct
  refine ⟨?_, ?_, ?_, ?_⟩
  · simp [submit_catalog_request, submitResolve, hpost, hres, hb]
  · simp [submit_catalog_request, submitResolve, submitSuccess,
      hpost, hres, hb]
  · intro s hs hne
    rw [hs]
    exact pyOrStr_of_truthy s _ hne
  · intro h
    exact pyOrStr_of_falsy _ _ h

/-- Claim C5, witness at the spec's own scenario: the remote returns
`{record: "incident", sys_id: "INC1", number: "INC0001"}` (no request
marker); the result is the record's own identifier and number and no
lookup is issued. -/
theorem c5_direct_record_resolution_witness :
    (submit_catalog_request "producer" none
        ⟨.ok (some ⟨[("record", "incident"), ("sys_id", "INC1"),
            ("number", "INC0001")]⟩),
         .ok (some [])⟩).lookupIssued = false ∧
    (submit_catalog_request "producer" none
        ⟨.ok (some ⟨[("record", "incident"), ("sys_id", "INC1"),
            ("number", "INC0001")]⟩),
         .ok (some [])⟩).outcome
      = .returned
          { success := true,
            message := "Submitted catalog request; created record INC0001",
            data := some { record_id := some "INC1",
                           record_number := some "INC0001" } } ∧
    (∀ s, (some "INC0001" : Option String) = some s → s ≠ "" →
      pyOrStr (some "INC0001") none = some s) ∧
    (((some "INC0001" : Option String) = none ∨
        (some "INC0001" : Option String) = some "") →
      pyOrStr (some "INC0001") none = none) :=
  c5_direct_record_resolution "producer" none
    ⟨.ok (some ⟨[("record", "incident"), ("sys_id", "INC1"),
        ("number", "INC0001")]⟩),
     .ok (some [])⟩
    (some ⟨[("record", "incident"), ("sys_id", "INC1"),
        ("number", "INC0001")]⟩)
    ⟨[("record", "incident"), ("sys_id", "INC1"), ("number", "INC0001")]⟩
    rfl rfl (by decide) (by decide)

/-- Claim C6, counterexample. The claim requires `success = false`
whenever `k = N`, with no exclusion for the empty list. For `N = 0` the
transport fails for exactly `k = 0 = N` of the items, yet the code takes
the full-success branch (`0 == len([])`) and returns `success = true`. -/
theorem c6_counterexample :
    (move_catalog_items [] "CAT" moveTransportB).success = true ∧
    (moveFailures [] moveTransportB).length = ([] : List String).length := by
  decide

/-- Claim C6, amended: for every **non-empty** list of item ids where the
transport fails for exactly `k` of them, if `k < N` the outcome has
`success = true` with `data.moved_items_count = N - k` and, when `k > 0`,
`data.failed_items` listing exactly the `k` failing ids in input order,
each with its error text; if `k = N` the outcome has `success = false`.
The `N = 0` case violates the `k = N` clause (see the counterexample). -/
theorem c6_move_items_partition (item_ids : List String) (target : String)
    (t : String → Option String) (hne : item_ids ≠ []) :
    ((moveFailures item_ids t).length < item_ids.length →
      (move_catalog_items item_ids target t).success = true ∧
      ∃ d, (move_catalog_items item_ids target t).data = some d ∧
        d.moved_items_count
          = some (item_ids.length - (moveFailures item_ids t).length) ∧
        (0 < (moveFailures item_ids t).length →
          d.failed_items = some (moveFailures item_ids t))) ∧
    ((moveFailures item_ids t).length = item_ids.length →
      (move_catalog_items item_ids target t).success = false) := by
  obtain ⟨hfl, hsum⟩ := moveLoop_spec item_ids t
  constructor
  · intro hlt
    by_cases hk : (moveFailures item_ids t).length = 0
    · have hcN : (moveLoop item_ids t).1 = item_ids.length := by omega
      refine ⟨?_, ⟨⟨some (moveLoop item_ids t).1, none⟩, ?_, ?_, ?_⟩⟩
      · simp [move_catalog_items, hcN]
      · simp [move_catalog_items, hcN]
      · simp [hcN, hk]
      · intro hpos
        omega
    · have hcN : (moveLoop item_ids t).1 ≠ item_ids.length := by omega
      have hcpos : 0 < (moveLoop item_ids t).1 := by omega
      have hbeq : ((moveLoop item_ids t).1 == item_ids.length) = false :=
        beq_eq_false_iff_ne.mpr hcN
      have hceq : (moveLoop item_ids t).1
          = item_ids.length - (moveFailures item_ids t).length := by omega
      refine ⟨?_, ⟨⟨some (moveLoop item_ids t).1, some (moveLoop item_ids t).2⟩,
        ?_, ?_, ?_⟩⟩
      · simp [move_catalog_items, hbeq, hcpos]
      · simp [move_catalog_items, hbeq, hcpos]
      · simp [hceq]
      · intro hpos
        simp [hfl]
  · intro heq
    have hc0 : (moveLoop item_ids t).1 = 0 := by omega
    have hN : 0 < item_ids.length := List.length_pos.mpr hne
    have h0 : ¬ (0 = item_ids.length) := by omega
    simp [move_catalog_items, hc0, h0]

/-- Claim C6, witness for the amended theorem: three item ids of which
exactly one (`"b"`) fails; the outcome is a partial success with
`moved_items_count = 2` and `failed_items = [{item_id: "b",
error: "boom"}]`. -/
theorem c6_move_items_partition_witness :
    ((moveFailures ["a", "b", "c"] moveTransportB).length
        < (["a", "b", "c"] : List String).length →
      (move_catalog_items ["a", "b", "c"] "CAT" moveTransportB).success
        = true ∧
      ∃ d, (move_catalog_items ["a", "b", "c"] "CAT" moveTransportB).data
          = some d ∧
        d.moved_items_count
          = some ((["a", "b", "c"] : List String).length
              - (moveFailures ["a", "b", "c"] moveTransportB).length) ∧
        (0 < (moveFailures ["a", "b", "c"] moveTransportB).length →
          d.failed_items = some (moveFailures ["a", "b", "c"] moveTransportB))) ∧
    ((moveFailures ["a", "b", "c"] moveTransportB).length
        = (["a", "b", "c"] : List String).length →
      (move_catalog_items ["a", "b", "c"] "CAT" moveTransportB).success
        = false) :=
  c6_move_items_partition ["a", "b", "c"] "CAT" moveTransportB (by decide)

/-- Claim C7: the submission request body contains the `variables` key
exactly when the supplied variables mapping is non-null and non-empty;
when it is null or an empty mapping the key is omitted entirely. -/
theorem c7_variables_key_iff_nonempty (item_type : String)
    (vars : Option (List (String × String))) (env : SubmitEnv) :
    "variables" ∈ ((submit_catalog_request item_type vars env).body.map Prod.fst)
      ↔ ∃ v, vars = some v ∧ v ≠ [] := by
  show "variables" ∈ (submitRequestBody vars).map Prod.fst ↔ _
  cases vars with
  | none => simp [submitRequestBody]
  | some v =>
      by_cases hv : v.isEmpty
      · simp [submitRequestBody, hv, List.isEmpty_iff.mp hv]
      · simp [submitRequestBody, hv]
        simpa using List.isEmpty_eq_false.mp (by simpa using hv)

/-- Claim C8: every field projected by `list_catalog_items` or
`get_catalog_item` equals the payload value at its source key when that
key is present and the empty string when it is missing (the projected
values have type `String`, so none is ever null). -/
theorem c8_projection_missing_fields_empty (o : JObj) (p : String × String) :
    (p ∈ formatCatalogListItem o → p.2 = (o.get p.1).getD "") ∧
    (p ∈ formatCatalogItemDetail o →
      p.2 = (o.get (detailSourceKey p.1)).getD "") := by
  constructor <;> intro hp <;> fin_cases hp <;> rfl

/-- Claim C8, witness at a concrete payload: a payload carrying only
`name = "X"` projects `name` to `"X"` via `formatCatalogListItem`. -/
theorem c8_projection_missing_fields_empty_witness :
    (("name", "X") ∈ formatCatalogListItem ⟨[("name", "X")]⟩) ∧
    ("X" = (((⟨[("name", "X")]⟩ : JObj)).get "name").getD "") :=
  ⟨by decide,
   (c8_projection_missing_fields_empty ⟨[("name", "X")]⟩ ("name", "X")).1
     (by decide)⟩

/-- Claim C9: when the GET succeeds but the response's `result` payload is
empty, `get_catalog_item` returns `success = false` with a not-found
message naming the requested item id, and `data = null`. -/
theorem c9_get_item_not_found (item_id : String)
    (env : Except String (Option JObj)) (jres : Option JObj)
    (hok : env = .ok jres)
    (hempty : (jres.getD JObj.empty).fields = []) :
    get_catalog_item item_id env
      = { success := false,
          message := "Catalog item not found: " ++ item_id,
          data := none } := by
  subst hok
  simp [get_catalog_item, hempty]

/-- Claim C9, witness: a successful GET whose body lacks the `result` key
(so the payload defaults to `{}`) for item id `"abc123"`. -/
theorem c9_get_item_not_found_witness :
    get_catalog_item "abc123" (.ok none)
      = { success := false,
          message := "Catalog item not found: abc123",
          data := none } :=
  c9_get_item_not_found "abc123" (.ok none) none rfl rfl

/-- Claim C10: every `item_type` other than `"producer"` — not only the
documented `"item"` — routes the submission to the `order_now` endpoint,
is never rejected, and produces a call identical in every observable way
to an `"item"` submission. -/
theorem c10_item_type_routing (item_type : String)
    (vars : Option (List (String × String))) (env : SubmitEnv)
    (h : item_type ≠ "producer") :
    (submit_catalog_request item_type vars env).endpoint = .orderNow ∧
    submit_catalog_request item_type vars env
      = submit_catalog_request "item" vars env := by
  have hb : (item_type == "producer") = false := beq_eq_false_iff_ne.mpr h
  constructor
  · show (if item_type == "producer" then Endpoint.submitProducer
      else .orderNow) = .orderNow
    rw [hb]
    rfl
  · simp [submit_catalog_request, hb]

/-- Claim C10, witness at the undocumented value `"bulk_order"`: it routes
to `order_now` and the whole trace equals the `"item"` trace. -/
theorem c10_item_type_routing_witness :
    (submit_catalog_request "bulk_order" none
        ⟨.error "x", .ok none⟩).endpoint = .orderNow ∧
    submit_catalog_request "bulk_order" none ⟨.error "x", .ok none⟩
      = submit_catalog_request "item" none ⟨.error "x", .ok none⟩ :=
  c10_item_type_routing "bulk_order" none ⟨.error "x", .ok none⟩ (by decide)

end CatalogTools
